import Mathlib

/-!
Shallow embedding of `src/samples/float-pane-sized/src/main.rs`: the pane
index rebuild, selection tracking, the two-stage resize input state machine
and the key router of the zellij floating-pane resize plugin.

Rust `usize`/`u8` values are modelled as `Nat` (the `u8` range is enforced by
the parse function exactly as the source does); `Option` mirrors Rust
`Option`; a function returns `none` at the points where the Rust code panics
(`expect`, `unwrap`, `unreachable!`).  Host calls
(`resize_floating_pane_by_percent`, `close_focus`, `hide_self`) are modelled
as emitted effects.
-/

namespace FloatPane

/-- A tab of a session snapshot (`TabInfo`): its stable `position`. -/
structure TabInfo where
  position : Nat
  deriving Repr, DecidableEq

/-- A pane record of a session snapshot (`PaneInfo`): the fields the plugin
reads (`id`, `is_floating`, `is_plugin`, title metadata). -/
structure PaneInfo where
  id : Nat
  is_floating : Bool
  is_plugin : Bool
  title : String
  deriving Repr, DecidableEq

/-- Modelled from the spec: the `ui` module (`src/ui`) of the repository is
not under `src/`, so the descriptor's owning-tab reference is taken from
spec §3: "owning tab reference (tab position/id)". -/
structure ParentTab where
  tab_id : Nat
  deriving Repr, DecidableEq

/-- Modelled from the spec: `ui::panes::PaneUi`, the pane descriptor
(`src/ui` is not under `src/`).  Spec §3: "identity (raw id, a flag
distinguishing plugin vs terminal pane kind), owning tab reference
(tab position/id), floating flag, plus whatever display metadata rendering
needs (title, geometry)". -/
structure PaneUi where
  pane_id : Nat
  is_plugin : Bool
  is_floating : Bool
  parent_tab : ParentTab
  title : String
  deriving Repr, DecidableEq

/-- Modelled from the spec: `PaneUi::new(pane, tab)` copies the pane's
fields and records the owning tab by its position. -/
def PaneUi.new (p : PaneInfo) (t : TabInfo) : PaneUi :=
  { pane_id := p.id
    is_plugin := p.is_plugin
    is_floating := p.is_floating
    parent_tab := { tab_id := t.position }
    title := p.title }

/-- One session of a snapshot (`SessionInfo`): the current-session flag, the
tab list, and the pane manifest (`panes.panes`), a map from tab position to
that tab's pane records, modelled as an association list. -/
structure SessionInfo where
  is_current_session : Bool
  tabs : List TabInfo
  panes : List (Nat × List PaneInfo)
  deriving Repr, DecidableEq

/-- `PaneManifest.panes.get(&k)`: lookup in the position-keyed pane map. -/
def manifestGet (m : List (Nat × List PaneInfo)) (k : Nat) : Option (List PaneInfo) :=
  (m.find? (fun kv => kv.1 = k)).map (fun kv => kv.2)

/-- `IntMap<usize, PaneUi>` modelled as an association list with distinct
keys; `insert` replaces the value at an existing key, else appends. -/
def mapInsert (m : List (Nat × PaneUi)) (k : Nat) (v : PaneUi) : List (Nat × PaneUi) :=
  if m.any (fun kv => kv.1 = k) then
    m.map (fun kv => if kv.1 = k then (k, v) else kv)
  else m ++ [(k, v)]

/-- `IntMap::get(&k)`. -/
def mapGet (m : List (Nat × PaneUi)) (k : Nat) : Option PaneUi :=
  (m.find? (fun kv => kv.1 = k)).map (fun kv => kv.2)

/-- `IntMap::len()`: number of entries (keys are distinct by construction). -/
def mapLen (m : List (Nat × PaneUi)) : Nat := m.length

/-- `PaneId` of the host API: plugin vs terminal pane identity. -/
inductive PaneId where
  | Plugin (id : Nat)
  | Terminal (id : Nat)
  deriving Repr, DecidableEq

/-- Host calls issued by the key handler. -/
inductive Effect where
  | resizeFloatingPaneByPercent (width height : Nat) (tabPos : Option Nat) (paneId : Option PaneId)
  | closeFocus
  | hideSelf
  deriving Repr, DecidableEq

/-- The subset of the host `Key` type the plugin matches on; `Other` stands
for every variant that falls into the final `_ => {}` arm. -/
inductive Key where
  | Down
  | Up
  | Ctrl (c : Char)
  | Esc
  | Delete
  | Char (c : Char)
  | Other
  deriving Repr, DecidableEq

/-- The plugin `State` struct.  The `colors` field is omitted: it is consumed
only by the excluded rendering collaborator. -/
structure State where
  is_loading : Bool
  panes : List (Nat × PaneUi)
  selected_pane : Option PaneUi
  cursor_pane_index : Option Nat
  new_width : Nat
  new_height : Nat
  input_buffer : List Char
  awaiting_length_input : Bool
  deriving Repr, DecidableEq

/-- Decimal value of a digit string, as Rust's `from_str_radix` accumulates
it. -/
def digitsVal (l : List Char) : Nat :=
  l.foldl (fun acc c => acc * 10 + (c.toNat - '0'.toNat)) 0

/-- `str::parse::<u8>()`: an optional leading `'+'` (a leading `'-'` is an
invalid digit for an unsigned type), then a nonempty run of ASCII digits
whose value fits in 8 bits. -/
def parse_u8 (s : List Char) : Option Nat :=
  let digits := fun (ds : List Char) =>
    if ds ≠ [] ∧ ds.all Char.isDigit ∧ digitsVal ds ≤ 255 then some (digitsVal ds) else none
  match s with
  | [] => digits []
  | c :: rest => if c = '+' then digits rest else digits (c :: rest)

/-- `self.input_buffer.parse::<u8>().unwrap_or(0)`. -/
def parseCommit (s : List Char) : Nat := (parse_u8 s).getD 0

/-- `capture_number_input`: push the digit onto the buffer. -/
def capture_number_input (s : State) (c : Char) : State :=
  { s with input_buffer := s.input_buffer ++ [c] }

/-- `send_resize_event`: read the selected pane (`unwrap` panics when none),
emit the resize call with the pending dimensions, and zero them.  The
`tab_pos.try_into::<u32>().unwrap()` panics when the tab id exceeds
`u32::MAX`. -/
def send_resize_event (s : State) : Option (State × List Effect) :=
  match s.selected_pane with
  | none => none
  | some pane =>
    let tab_pos := pane.parent_tab.tab_id
    if tab_pos < 4294967296 then
      some ({ s with new_width := 0, new_height := 0 },
        [Effect.resizeFloatingPaneByPercent s.new_width s.new_height (some tab_pos)
          (some (if pane.is_plugin then PaneId.Plugin pane.pane_id
                 else PaneId.Terminal pane.pane_id))])
    else none

/-- `handle_key`: the key router.  Returns the new state and the host calls
made, or `none` where the Rust code panics (the `unreachable!()` arms of the
cursor match, and the panics inside `send_resize_event`). -/
def handle_key (s : State) (e : Key) : Option (State × List Effect) :=
  match e with
  | Key.Down =>
    match s.cursor_pane_index with
    | some idx =>
      if idx < mapLen s.panes then some ({ s with cursor_pane_index := some (idx + 1) }, [])
      else if idx = mapLen s.panes then some ({ s with cursor_pane_index := some 1 }, [])
      else none
    | none => some ({ s with cursor_pane_index := some 1 }, [])
  | Key.Up =>
    match s.cursor_pane_index with
    | some idx =>
      if idx > 1 then some ({ s with cursor_pane_index := some (idx - 1) }, [])
      else if idx = 1 then some ({ s with cursor_pane_index := some (mapLen s.panes) }, [])
      else none
    | none => some ({ s with cursor_pane_index := some 1 }, [])
  | Key.Ctrl c =>
    if c = 's' ∧ s.selected_pane.isSome then send_resize_event s
    else if c = 'r' ∧ s.selected_pane.isSome then
      some ({ s with new_width := 0, new_height := 0, input_buffer := [],
                     awaiting_length_input := false }, [])
    else if c = 'e' then some (s, [Effect.closeFocus])
    else some (s, [])
  | Key.Esc =>
    if s.selected_pane.isSome then
      some ({ s with selected_pane := none, new_width := 0, new_height := 0 }, [])
    else some (s, [Effect.hideSelf])
  | Key.Delete =>
    if s.selected_pane.isSome then some ({ s with selected_pane := none }, [])
    else some (s, [Effect.hideSelf])
  | Key.Char c =>
    if c = '\n' ∧ s.selected_pane.isNone then
      some ({ s with selected_pane :=
        s.cursor_pane_index.bind (fun idx => mapGet s.panes idx) }, [])
    else if c = '\n' ∧ s.selected_pane.isSome then
      if s.awaiting_length_input then
        some ({ s with new_height := parseCommit s.input_buffer, input_buffer := [],
                       awaiting_length_input := false }, [])
      else
        some ({ s with new_width := parseCommit s.input_buffer, input_buffer := [],
                       awaiting_length_input := true }, [])
    else if '0' ≤ c ∧ c ≤ '9' then
      if s.selected_pane.isSome then some (capture_number_input s c, []) else some (s, [])
    else some (s, [])
  | Key.Other => some (s, [])

/-- The floating panes one tab contributes, in pane snapshot order:
`panes.get(&tab.position)` filtered by `is_floating`, turned into
descriptors. -/
def tabFloating (cur : SessionInfo) (tab : TabInfo) : List PaneUi :=
  match manifestGet cur.panes tab.position with
  | none => []
  | some related => (related.filter (fun p => p.is_floating)).map (fun p => PaneUi.new p tab)

/-- The inner loop of `get_panes`: insert each descriptor at the running
key and advance the key. -/
def insertPanes (acc : List (Nat × PaneUi) × Nat) (ps : List PaneUi) :
    List (Nat × PaneUi) × Nat :=
  ps.foldl (fun a pane => (mapInsert a.1 a.2 pane, a.2 + 1)) acc

/-- The outer loop of `get_panes` over the tabs of the current session. -/
def insertTabs (cur : SessionInfo) (acc : List (Nat × PaneUi) × Nat)
    (tabs : List TabInfo) : List (Nat × PaneUi) × Nat :=
  tabs.foldl (fun a tab => insertPanes a (tabFloating cur tab)) acc

/-- `get_panes`: clear the index, find the current session (`expect` panics
when none), and repopulate with keys starting at 1 in tab-major, pane-minor
order. -/
def get_panes (s : State) (session : List SessionInfo) : Option State :=
  match session.find? (fun si => si.is_current_session) with
  | none => none
  | some cur => some { s with panes := (insertTabs cur ([], 1) cur.tabs).1 }

/-- `update_selected_pane`: find the current session (`expect` panics when
none); when a pane is selected, look its tab up by id in the pane manifest,
find the pane by id there, and (when the tab also indexes into the tab list)
replace the descriptor with a freshly built one; otherwise leave the
selection untouched. -/
def update_selected_pane (s : State) (session : List SessionInfo) : Option State :=
  match session.find? (fun si => si.is_current_session) with
  | none => none
  | some cur =>
    match s.selected_pane with
    | none => some s
    | some sel =>
      match (manifestGet cur.panes sel.parent_tab.tab_id).bind
          (fun l => l.find? (fun p => p.id = sel.pane_id)) with
      | some pane_info =>
        match cur.tabs[sel.parent_tab.tab_id]? with
        | some parent_tab =>
          some { s with selected_pane := some (PaneUi.new pane_info parent_tab) }
        | none => some s
      | none => some s

/-- The `Event::SessionUpdate` arm of `update`: rebuild the index, refresh
the selection only when one exists, and clear the loading flag. -/
def processSessionUpdate (s : State) (si : List SessionInfo) : Option State :=
  (get_panes s si).bind (fun s1 =>
    (if s1.selected_pane.isSome then update_selected_pane s1 si else some s1).map
      (fun s2 => { s2 with is_loading := false }))

/-- Run a sequence of key events, accumulating the emitted host calls;
`none` as soon as one key handler panics. -/
def run_keys (s : State) (ks : List Key) : Option (State × List Effect) :=
  ks.foldl
    (fun acc k => acc.bind (fun p =>
      (handle_key p.1 k).map (fun q => (q.1, p.2 ++ q.2))))
    (some (s, []))

/-- Iterate one key `n` times, tracking only the state. -/
def iter_key (k : Key) : Nat → State → Option State
  | 0, s => some s
  | n + 1, s => (handle_key s k).bind (fun p => iter_key k n p.1)

/-- Number of resize requests in a list of emitted host calls. -/
def countResize (l : List Effect) : Nat :=
  l.countP (fun e =>
    match e with
    | Effect.resizeFloatingPaneByPercent _ _ _ _ => true
    | _ => false)

/-- The floating panes of the current session in tab-major, pane-minor
snapshot order. -/
def floatingList (cur : SessionInfo) : List PaneUi :=
  (cur.tabs.map (tabFloating cur)).flatten

/-! Concrete descriptors, states and snapshots used to instantiate the
theorems below. -/

/-- A terminal floating pane of tab 0. -/
def pane1 : PaneUi :=
  { pane_id := 10, is_plugin := false, is_floating := true,
    parent_tab := { tab_id := 0 }, title := "one" }

/-- A plugin floating pane of tab 1. -/
def pane2 : PaneUi :=
  { pane_id := 11, is_plugin := true, is_floating := true,
    parent_tab := { tab_id := 1 }, title := "two" }

/-- The plugin state right after loading: empty index, no selection. -/
def emptyState : State :=
  { is_loading := false, panes := [], selected_pane := none, cursor_pane_index := none,
    new_width := 0, new_height := 0, input_buffer := [], awaiting_length_input := false }

/-- One pane indexed, cursor on it, nothing selected yet. -/
def cexRunState : State :=
  { emptyState with panes := [(1, pane1)], cursor_pane_index := some 1 }

/-- The key run of the spec's scenario B: select, type "80", commit,
type "24", commit. -/
def cexRunKeys : List Key :=
  [Key.Char '\n', Key.Char '8', Key.Char '0', Key.Char '\n',
   Key.Char '2', Key.Char '4', Key.Char '\n']

/-- A selected pane mid-entry: pending width 5, height 7, buffer "12",
awaiting the height. -/
def cexDeleteState : State :=
  { emptyState with
    panes := [(1, pane1)], selected_pane := some pane1,
    cursor_pane_index := some 1, new_width := 5, new_height := 7,
    input_buffer := ['1', '2'], awaiting_length_input := true }

/-- A selected pane with width 80 committed and "24" typed, awaiting the
height commit. -/
def commitState : State :=
  { emptyState with
    panes := [(1, pane1)], selected_pane := some pane1,
    cursor_pane_index := some 1, new_width := 80,
    input_buffer := ['2', '4'], awaiting_length_input := true }

/-- A selected pane with the out-of-range buffer "999" awaiting the width
commit. -/
def clampState : State :=
  { emptyState with
    panes := [(1, pane1)], selected_pane := some pane1,
    cursor_pane_index := some 1, input_buffer := ['9', '9', '9'] }

/-- Two panes indexed, cursor on the last key. -/
def navState : State :=
  { emptyState with panes := [(1, pane1), (2, pane2)], cursor_pane_index := some 2 }

/-- A current session with two tabs: tab 0 holds floating pane 10 and a
tiled pane 5, tab 1 holds floating pane 11. -/
def demoSession : SessionInfo :=
  { is_current_session := true,
    tabs := [{ position := 0 }, { position := 1 }],
    panes :=
      [(0, [{ id := 10, is_floating := true, is_plugin := false, title := "one" },
            { id := 5, is_floating := false, is_plugin := false, title := "tiled" }]),
       (1, [{ id := 11, is_floating := true, is_plugin := true, title := "two" }])] }

/-- A snapshot with one non-current and one current session. -/
def demoSnapshot : List SessionInfo :=
  [{ is_current_session := false, tabs := [], panes := [] }, demoSession]

/-- A snapshot in which no session is marked current. -/
def noCurrentSnapshot : List SessionInfo :=
  [{ is_current_session := false, tabs := [{ position := 0 }], panes := [] }]

/-- A snapshot whose current session no longer contains pane 10's tab. -/
def staleSnapshot : List SessionInfo :=
  [{ is_current_session := true, tabs := [], panes := [] }]

/-- Empty index with the cursor left on a stale key. -/
def cursor3State : State := { emptyState with cursor_pane_index := some 3 }

/-! Theorems. -/

/-- Claim C3 (code bug): with an empty pane index (`count = 0`) and no
cursor, a move-down key sets the cursor to `1`, which lies outside
`[1, count]`; a second move-down then reaches the `unreachable!()` arm and
panics.  The navigation `None → 1` transition is not guarded by
`count ≥ 1`, contradicting the code's own `unreachable!()` assertion. -/
theorem nav_unguarded_empty_index :
    handle_key emptyState Key.Down =
      some ({ emptyState with cursor_pane_index := some 1 }, []) ∧
    mapLen emptyState.panes = 0 ∧
    handle_key { emptyState with cursor_pane_index := some 1 } Key.Down = none := by
  decide

/-- Claim C9: a move-down or move-up key changes at most the cursor index:
the pane index, selection, input buffer, stage flag, pending width and
height and loading flag are untouched, and no host call is made. -/
theorem nav_frame (s s' : State) (eff : List Effect) (k : Key)
    (hk : k = Key.Down ∨ k = Key.Up) (h : handle_key s k = some (s', eff)) :
    s'.panes = s.panes ∧ s'.selected_pane = s.selected_pane ∧
    s'.input_buffer = s.input_buffer ∧
    s'.awaiting_length_input = s.awaiting_length_input ∧
    s'.new_width = s.new_width ∧ s'.new_height = s.new_height ∧
    s'.is_loading = s.is_loading ∧ eff = [] := by
  rcases hk with rfl | rfl <;>
    cases hc : s.cursor_pane_index <;>
      simp only [handle_key, hc] at h <;>
        [skip; split_ifs at h; skip; split_ifs at h] <;>
          simp only [Option.some.injEq, Prod.mk.injEq] at h <;>
            obtain ⟨rfl, rfl⟩ := h.symm <;> simp

/-- Witness for C9: move-down at the concrete two-pane state with the
cursor on the last key. -/
theorem nav_frame_witness :
    ({ navState with cursor_pane_index := some 1 } : State).panes = navState.panes ∧
    ({ navState with cursor_pane_index := some 1 } : State).selected_pane =
      navState.selected_pane ∧
    ({ navState with cursor_pane_index := some 1 } : State).input_buffer =
      navState.input_buffer ∧
    ({ navState with cursor_pane_index := some 1 } : State).awaiting_length_input =
      navState.awaiting_length_input ∧
    ({ navState with cursor_pane_index := some 1 } : State).new_width = navState.new_width ∧
    ({ navState with cursor_pane_index := some 1 } : State).new_height = navState.new_height ∧
    ({ navState with cursor_pane_index := some 1 } : State).is_loading = navState.is_loading ∧
    ([] : List Effect) = [] :=
  nav_frame navState { navState with cursor_pane_index := some 1 } [] Key.Down
    (Or.inl rfl) (by decide)

/-- Claim C10: with no active selection, the commit key sets the selection
to the descriptor at the cursor's key when that key is in the index, and
leaves it `none` otherwise (cursor absent or key missing), changing nothing
else and making no host call. -/
theorem commit_select_total (s : State) (h : s.selected_pane = none) :
    handle_key s (Key.Char '\n') =
      some ({ s with selected_pane :=
        s.cursor_pane_index.bind (fun idx => mapGet s.panes idx) }, []) ∧
    (s.cursor_pane_index = none →
      s.cursor_pane_index.bind (fun idx => mapGet s.panes idx) = none) ∧
    (∀ idx, s.cursor_pane_index = some idx → mapGet s.panes idx = none →
      s.cursor_pane_index.bind (fun idx => mapGet s.panes idx) = none) ∧
    (∀ idx p, s.cursor_pane_index = some idx → mapGet s.panes idx = some p →
      s.cursor_pane_index.bind (fun idx => mapGet s.panes idx) = some p) := by
  refine ⟨by simp [handle_key, h], ?_, ?_, ?_⟩
  · intro hc; simp [hc]
  · intro idx hc hm; simp [hc, hm]
  · intro idx p hc hm; simp [hc, hm]

/-- Witness for C10: commit with the cursor on a key that is absent from
the (empty) index leaves the selection `none` without panicking. -/
theorem commit_select_total_witness :
    handle_key cursor3State (Key.Char '\n') =
      some ({ cursor3State with selected_pane :=
        cursor3State.cursor_pane_index.bind (fun idx => mapGet cursor3State.panes idx) }, []) :=
  (commit_select_total cursor3State rfl).1

/-- Counterexample to claim C1: running scenario B (select, type "80",
commit, type "24", commit) delivers zero resize requests to the
dispatcher, not exactly one — the height commit stores the height but
emits nothing. -/
theorem height_commit_no_resize_cex :
    (run_keys cexRunState cexRunKeys).map (fun p => countResize p.2) = some 0 ∧
    (run_keys cexRunState cexRunKeys).map (fun p => countResize p.2) ≠ some 1 := by
  decide

/-- Counterexample to claim C5: clearing an active selection with the
delete key leaves the resize FSM untouched — the buffer stays "12", the
stage stays `AwaitingHeight` and the pending width stays 5, instead of the
claimed reset to `(empty, AwaitingWidth, 0, 0)`. -/
theorem delete_leaves_fsm_cex :
    handle_key cexDeleteState Key.Delete =
      some ({ cexDeleteState with selected_pane := none }, []) ∧
    ({ cexDeleteState with selected_pane := none } : State).input_buffer ≠ [] ∧
    ({ cexDeleteState with selected_pane := none } : State).awaiting_length_input = true ∧
    ({ cexDeleteState with selected_pane := none } : State).new_width ≠ 0 := by
  decide

/-- Claim C1 (amended): with a pane selected and the FSM awaiting the
height, the commit key parses the buffer as the pending height, clears the
buffer and returns the stage to `AwaitingWidth`, but emits no resize
request and leaves the pending width in place; the resize request
`(pending width, pending height)` is emitted only by the separate
resize-confirm key (Ctrl+s) while a selection is active, which then resets
width and height to 0. -/
theorem height_commit_then_confirm (s : State) (p : PaneUi)
    (hsel : s.selected_pane = some p) (hst : s.awaiting_length_input = true) :
    handle_key s (Key.Char '\n') =
      some ({ s with new_height := parseCommit s.input_buffer, input_buffer := [],
                     awaiting_length_input := false }, []) ∧
    (p.parent_tab.tab_id < 4294967296 →
      handle_key s (Key.Ctrl 's') =
        some ({ s with new_width := 0, new_height := 0 },
          [Effect.resizeFloatingPaneByPercent s.new_width s.new_height
            (some p.parent_tab.tab_id)
            (some (if p.is_plugin then PaneId.Plugin p.pane_id
                   else PaneId.Terminal p.pane_id))])) := by
  constructor
  · simp [handle_key, hsel, hst]
  · intro h32
    simp [handle_key, hsel, send_resize_event, h32]

/-- Witness for C1: committing the height at the concrete state with width
80 committed and "24" in the buffer stores height `parseCommit "24"` and
emits nothing; Ctrl+s then emits the one resize request. -/
theorem height_commit_then_confirm_witness :
    (handle_key commitState (Key.Char '\n') =
      some ({ commitState with new_height := parseCommit commitState.input_buffer,
                               input_buffer := [], awaiting_length_input := false }, [])) ∧
    (handle_key commitState (Key.Ctrl 's') =
      some ({ commitState with new_width := 0, new_height := 0 },
        [Effect.resizeFloatingPaneByPercent commitState.new_width commitState.new_height
          (some pane1.parent_tab.tab_id)
          (some (if pane1.is_plugin then PaneId.Plugin pane1.pane_id
                 else PaneId.Terminal pane1.pane_id))])) :=
  ⟨(height_commit_then_confirm commitState pane1 rfl rfl).1,
   (height_commit_then_confirm commitState pane1 rfl rfl).2 (by decide)⟩

/-- Claim C5 (amended): while a selection is active, only the cancel key
(Ctrl+r) resets the resize FSM to `(empty buffer, AwaitingWidth, 0, 0)`
(keeping the selection); clearing the selection with Esc zeroes the
pending width and height but leaves the buffer and stage unchanged;
clearing it with Delete leaves the whole FSM unchanged; a resize commit
(Ctrl+s) zeroes the pending width and height but leaves the buffer and
stage unchanged. -/
theorem teardown_reset_behavior (s : State) (p : PaneUi)
    (hsel : s.selected_pane = some p) :
    handle_key s (Key.Ctrl 'r') =
      some ({ s with new_width := 0, new_height := 0, input_buffer := [],
                     awaiting_length_input := false }, []) ∧
    handle_key s Key.Esc =
      some ({ s with selected_pane := none, new_width := 0, new_height := 0 }, []) ∧
    handle_key s Key.Delete = some ({ s with selected_pane := none }, []) ∧
    (p.parent_tab.tab_id < 4294967296 →
      handle_key s (Key.Ctrl 's') =
        some ({ s with new_width := 0, new_height := 0 },
          [Effect.resizeFloatingPaneByPercent s.new_width s.new_height
            (some p.parent_tab.tab_id)
            (some (if p.is_plugin then PaneId.Plugin p.pane_id
                   else PaneId.Terminal p.pane_id))])) := by
  refine ⟨?_, ?_, ?_, fun h32 => ?_⟩
  · simp [handle_key, hsel]
  · simp [handle_key, hsel]
  · simp [handle_key, hsel]
  · simp [handle_key, hsel, send_resize_event, h32]

/-- Witness for C5: the cancel key at the concrete mid-entry state resets
buffer, stage and pending dimensions while keeping the selection. -/
theorem teardown_reset_behavior_witness :
    handle_key cexDeleteState (Key.Ctrl 'r') =
      some ({ cexDeleteState with new_width := 0, new_height := 0, input_buffer := [],
                                  awaiting_length_input := false }, []) :=
  (teardown_reset_behavior cexDeleteState pane1 rfl).1

/-- On an all-digit buffer, the committed value is the represented decimal
value when nonempty and at most 255, and 0 otherwise. -/
theorem parseCommit_digits (buf : List Char) (hd : buf.all Char.isDigit = true) :
    parseCommit buf = if buf ≠ [] ∧ digitsVal buf ≤ 255 then digitsVal buf else 0 := by
  have key : parse_u8 buf =
      if buf ≠ [] ∧ buf.all Char.isDigit = true ∧ digitsVal buf ≤ 255
      then some (digitsVal buf) else none := by
    cases buf with
    | nil => simp [parse_u8]
    | cons c rest =>
      have hc : c.isDigit = true := List.all_eq_true.mp hd c (List.mem_cons_self c rest)
      have hne : ¬ c = '+' := by
        intro h
        rw [h] at hc
        exact absurd hc (by decide)
      simp only [parse_u8]
      rw [if_neg hne]
  rw [parseCommit, key]
  by_cases hb : buf = [] <;> by_cases hv : digitsVal buf ≤ 255 <;> simp [hd, hb, hv]

/-- A buffer containing a character that is neither an ASCII digit nor a
leading plus sign always commits to 0. -/
theorem parseCommit_bad (buf : List Char) (c : Char) (hmem : c ∈ buf)
    (hc : c.isDigit = false) (hplus : c ≠ '+') : parseCommit buf = 0 := by
  cases buf with
  | nil => rfl
  | cons d rest =>
    simp only [parseCommit, parse_u8]
    by_cases hd : d = '+'
    · rw [if_pos hd]
      have hcr : c ∈ rest := by
        rcases List.mem_cons.mp hmem with h | h
        · exact absurd (h.trans hd) hplus
        · exact h
      have hall : rest.all Char.isDigit = false := by
        refine Bool.eq_false_iff.mpr fun hall => ?_
        have := List.all_eq_true.mp hall c hcr
        rw [hc] at this
        exact Bool.false_ne_true this
      simp [hall]
    · rw [if_neg hd]
      have hall : (d :: rest).all Char.isDigit = false := by
        refine Bool.eq_false_iff.mpr fun hall => ?_
        have := List.all_eq_true.mp hall c hmem
        rw [hc] at this
        exact Bool.false_ne_true this
      simp [hall]

/-- Claim C4: with a pane selected, committing an all-digit buffer stores
exactly the represented value when it is at most 255 and stores 0 when the
buffer is empty or its value exceeds 255; the same law applies to the
width commit (`AwaitingWidth`) and the height commit (`AwaitingHeight`);
and a buffer holding any character that could not be part of a parsed
number commits to 0. -/
theorem commit_parse_law (s : State) (p : PaneUi)
    (hsel : s.selected_pane = some p) (hd : s.input_buffer.all Char.isDigit = true) :
    (s.awaiting_length_input = false →
      handle_key s (Key.Char '\n') =
        some ({ s with
                new_width := if s.input_buffer ≠ [] ∧ digitsVal s.input_buffer ≤ 255
                             then digitsVal s.input_buffer else 0,
                input_buffer := [], awaiting_length_input := true }, [])) ∧
    (s.awaiting_length_input = true →
      handle_key s (Key.Char '\n') =
        some ({ s with
                new_height := if s.input_buffer ≠ [] ∧ digitsVal s.input_buffer ≤ 255
                              then digitsVal s.input_buffer else 0,
                input_buffer := [], awaiting_length_input := false }, [])) ∧
    (∀ (bad : List Char) (c : Char), c ∈ bad → c.isDigit = false → c ≠ '+' →
      parseCommit bad = 0) := by
  refine ⟨fun hst => ?_, fun hst => ?_,
    fun bad c hm hc hp => parseCommit_bad bad c hm hc hp⟩
  · simp [handle_key, hsel, hst, parseCommit_digits _ hd]
  · simp [handle_key, hsel, hst, parseCommit_digits _ hd]

/-- Witness for C4: scenario C — committing the buffer "999" while
awaiting the width stores width 0 (out-of-range clamp). -/
theorem commit_parse_law_witness :
    (handle_key clampState (Key.Char '\n') =
      some ({ clampState with
              new_width := if clampState.input_buffer ≠ [] ∧
                              digitsVal clampState.input_buffer ≤ 255
                           then digitsVal clampState.input_buffer else 0,
              input_buffer := [], awaiting_length_input := true }, [])) ∧
    (if clampState.input_buffer ≠ [] ∧ digitsVal clampState.input_buffer ≤ 255
     then digitsVal clampState.input_buffer else 0) = 0 :=
  ⟨(commit_parse_law clampState pane1 rfl (by decide)).1 rfl, by decide⟩

/-- One move-down step on an in-bounds cursor is the cyclic successor
`idx % count + 1`. -/
theorem down_step (s : State) (idx : Nat) (hc : s.cursor_pane_index = some idx)
    (h1 : 1 ≤ idx) (h2 : idx ≤ mapLen s.panes) :
    handle_key s Key.Down =
      some ({ s with cursor_pane_index := some (idx % mapLen s.panes + 1) }, []) := by
  simp only [handle_key, hc]
  rcases Nat.lt_or_ge idx (mapLen s.panes) with h | h
  · rw [if_pos h, Nat.mod_eq_of_lt h]
  · have he : idx = mapLen s.panes := Nat.le_antisymm h2 h
    rw [if_neg (by omega), if_pos he, he, Nat.mod_self]

/-- One move-up step on an in-bounds cursor is the cyclic predecessor
`(idx + count - 2) % count + 1`. -/
theorem up_step (s : State) (idx : Nat) (hc : s.cursor_pane_index = some idx)
    (h1 : 1 ≤ idx) (h2 : idx ≤ mapLen s.panes) :
    handle_key s Key.Up =
      some ({ s with
              cursor_pane_index := some ((idx + mapLen s.panes - 2) % mapLen s.panes + 1) },
        []) := by
  simp only [handle_key, hc]
  rcases Nat.lt_or_ge 1 idx with h | h
  · rw [if_pos h]
    have harg : idx + mapLen s.panes - 2 = (idx - 2) + mapLen s.panes := by omega
    rw [harg, Nat.add_mod_right, Nat.mod_eq_of_lt (by omega)]
    have : idx - 2 + 1 = idx - 1 := by omega
    rw [this]
  · have he : idx = 1 := by omega
    rw [if_neg (by omega), if_pos he, he]
    have harg : 1 + mapLen s.panes - 2 = mapLen s.panes - 1 := by omega
    rw [harg, Nat.mod_eq_of_lt (by omega)]
    have : mapLen s.panes - 1 + 1 = mapLen s.panes := by omega
    rw [this]

/-- Iterating move-down `n` times from an in-bounds cursor lands on
`(idx - 1 + n) % count + 1`. -/
theorem iter_down (n : Nat) : ∀ (s : State) (idx : Nat),
    s.cursor_pane_index = some idx → 1 ≤ idx → idx ≤ mapLen s.panes →
    iter_key Key.Down n s =
      some { s with cursor_pane_index := some ((idx - 1 + n) % mapLen s.panes + 1) } := by
  induction n with
  | zero =>
    intro s idx hc h1 h2
    have harg : (idx - 1 + 0) % mapLen s.panes + 1 = idx := by
      rw [Nat.add_zero, Nat.mod_eq_of_lt (by omega)]
      omega
    rw [iter_key, harg, ← hc]
  | succ n ih =>
    intro s idx hc h1 h2
    rw [iter_key, down_step s idx hc h1 h2, Option.some_bind]
    have hlen : 1 ≤ mapLen s.panes := le_trans h1 h2
    have hlt : idx % mapLen s.panes < mapLen s.panes := Nat.mod_lt idx (by omega)
    have := ih { s with cursor_pane_index := some (idx % mapLen s.panes + 1) }
      (idx % mapLen s.panes + 1) rfl (by omega) (by
        show idx % mapLen s.panes + 1 ≤ mapLen s.panes
        omega)
    rw [this]
    have harg : (idx % mapLen s.panes + 1 - 1 + n) % mapLen s.panes =
        (idx - 1 + (n + 1)) % mapLen s.panes := by
      rw [Nat.add_sub_cancel, Nat.mod_add_mod]
      have hargs : idx + n = idx - 1 + (n + 1) := by omega
      rw [hargs]
    rw [harg]

/-- Iterating move-up `n` times from an in-bounds cursor lands on
`(idx - 1 + n * (count - 1)) % count + 1`. -/
theorem iter_up (n : Nat) : ∀ (s : State) (idx : Nat),
    s.cursor_pane_index = some idx → 1 ≤ idx → idx ≤ mapLen s.panes →
    iter_key Key.Up n s =
      some { s with cursor_pane_index := some ((idx - 1 + n * (mapLen s.panes - 1)) % mapLen s.panes + 1) } := by
  induction n with
  | zero =>
    intro s idx hc h1 h2
    have harg : (idx - 1 + 0 * (mapLen s.panes - 1)) % mapLen s.panes + 1 = idx := by
      rw [Nat.zero_mul, Nat.add_zero, Nat.mod_eq_of_lt (by omega)]
      omega
    rw [iter_key, harg, ← hc]
  | succ n ih =>
    intro s idx hc h1 h2
    rw [iter_key, up_step s idx hc h1 h2, Option.some_bind]
    have hlen : 1 ≤ mapLen s.panes := le_trans h1 h2
    have hlt : (idx + mapLen s.panes - 2) % mapLen s.panes < mapLen s.panes :=
      Nat.mod_lt _ (by omega)
    have := ih { s with cursor_pane_index := some ((idx + mapLen s.panes - 2) % mapLen s.panes + 1) }
      ((idx + mapLen s.panes - 2) % mapLen s.panes + 1) rfl (by omega) (by
        show (idx + mapLen s.panes - 2) % mapLen s.panes + 1 ≤ mapLen s.panes
        omega)
    rw [this]
    have harg : ((idx + mapLen s.panes - 2) % mapLen s.panes + 1 - 1 + n * (mapLen s.panes - 1))
          % mapLen s.panes =
        (idx - 1 + (n + 1) * (mapLen s.panes - 1)) % mapLen s.panes := by
      rw [Nat.add_sub_cancel, Nat.mod_add_mod]
      have hargs : idx + mapLen s.panes - 2 + n * (mapLen s.panes - 1) =
          idx - 1 + (n + 1) * (mapLen s.panes - 1) := by
        rw [Nat.succ_mul]
        generalize n * (mapLen s.panes - 1) = q
        omega
      rw [hargs]
    rw [harg]

/-- Claim C6: from any in-bounds cursor, `count` move-down presses return
the state (in particular the cursor) to its original value, and so do
`count` move-up presses — ring closure of the wrap-around navigation. -/
theorem ring_closure (s : State) (idx : Nat) (hc : s.cursor_pane_index = some idx)
    (h1 : 1 ≤ idx) (h2 : idx ≤ mapLen s.panes) :
    iter_key Key.Down (mapLen s.panes) s = some s ∧
    iter_key Key.Up (mapLen s.panes) s = some s := by
  constructor
  · rw [iter_down (mapLen s.panes) s idx hc h1 h2]
    have harg : (idx - 1 + mapLen s.panes) % mapLen s.panes + 1 = idx := by
      rw [Nat.add_mod_right, Nat.mod_eq_of_lt (by omega)]
      omega
    rw [harg, ← hc]
  · rw [iter_up (mapLen s.panes) s idx hc h1 h2]
    have harg : (idx - 1 + mapLen s.panes * (mapLen s.panes - 1)) % mapLen s.panes + 1 = idx := by
      rw [Nat.add_mul_mod_self_left, Nat.mod_eq_of_lt (by omega)]
      omega
    rw [harg, ← hc]

/-- Witness for C6: two panes, cursor on key 2 — two downs and two ups
each return to the original state. -/
theorem ring_closure_witness :
    iter_key Key.Down (mapLen navState.panes) navState = some navState ∧
    iter_key Key.Up (mapLen navState.panes) navState = some navState :=
  ring_closure navState 2 rfl (by decide) (by decide)

/-- Claim C7: on a snapshot with a current session, the selection refresh
replaces the selected descriptor with a freshly constructed one exactly
when the tab-id lookups (the pane manifest entry and the tab-list entry at
the selected tab id) and the pane-id lookup all succeed; if any lookup
fails the descriptor is left unchanged (stale but present, no panic), and
with no selection the refresh never creates one. -/
theorem selection_refresh_exact (s : State) (si : List SessionInfo) (cur : SessionInfo)
    (hf : si.find? (fun x => x.is_current_session) = some cur) :
    (s.selected_pane = none → update_selected_pane s si = some s) ∧
    (∀ s', processSessionUpdate s si = some s' → s.selected_pane = none →
      s'.selected_pane = none) ∧
    (∀ sel, s.selected_pane = some sel →
      (∀ pi tab,
        (manifestGet cur.panes sel.parent_tab.tab_id).bind
            (fun l => l.find? (fun p => p.id = sel.pane_id)) = some pi →
        cur.tabs[sel.parent_tab.tab_id]? = some tab →
        update_selected_pane s si =
          some { s with selected_pane := some (PaneUi.new pi tab) }) ∧
      ((manifestGet cur.panes sel.parent_tab.tab_id).bind
          (fun l => l.find? (fun p => p.id = sel.pane_id)) = none →
        update_selected_pane s si = some s) ∧
      (cur.tabs[sel.parent_tab.tab_id]? = none →
        update_selected_pane s si = some s)) := by
  refine ⟨fun hn => ?_, fun s' hp hn => ?_, fun sel hs => ⟨fun pi tab hl ht => ?_, fun hl => ?_, fun ht => ?_⟩⟩
  · simp [update_selected_pane, hf, hn]
  · simp [processSessionUpdate, get_panes, hf, hn] at hp
    subst hp
    simp
  · simp [update_selected_pane, hf, hs, hl, ht]
  · simp [update_selected_pane, hf, hs, hl]
  · cases hl : (manifestGet cur.panes sel.parent_tab.tab_id).bind
        (fun l => l.find? (fun p => p.id = sel.pane_id)) with
    | none => simp [update_selected_pane, hf, hs, hl]
    | some pi => simp [update_selected_pane, hf, hs, hl, ht]

/-- Witness for C7: scenario E — a selection exists and the next snapshot
no longer contains the selected pane's tab: the selection is unchanged; on
the full snapshot, where all lookups succeed, it is refreshed in place. -/
theorem selection_refresh_exact_witness :
    update_selected_pane cexDeleteState staleSnapshot = some cexDeleteState ∧
    update_selected_pane cexDeleteState demoSnapshot =
      some { cexDeleteState with selected_pane := some pane1 } := by
  constructor
  · exact ((selection_refresh_exact cexDeleteState staleSnapshot
      { is_current_session := true, tabs := [], panes := [] } rfl).2.2 pane1 rfl).2.1 rfl
  · have h := ((selection_refresh_exact cexDeleteState demoSnapshot demoSession
      rfl).2.2 pane1 rfl).1
      { id := 10, is_floating := true, is_plugin := false, title := "one" }
      { position := 0 } (by decide) (by decide)
    rw [h]
    decide

/-- Claim C8: a snapshot in which no session is marked current makes both
the pane-index rebuild and the selection refresh hit their fatal
`expect("no current session")` branch (modelled as `none`); when exactly
one session is marked current, neither function can reach that fatal
branch. -/
theorem no_current_session_fatal (s : State) (si : List SessionInfo) :
    ((∀ x ∈ si, x.is_current_session = false) →
      get_panes s si = none ∧ update_selected_pane s si = none ∧
      processSessionUpdate s si = none) ∧
    (si.countP (fun x => x.is_current_session) = 1 →
      (get_panes s si).isSome = true ∧ (update_selected_pane s si).isSome = true) := by
  constructor
  · intro hn
    have hf : si.find? (fun x => x.is_current_session) = none := by
      rw [List.find?_eq_none]
      intro x hx
      rw [hn x hx]
      exact Bool.false_ne_true
    refine ⟨?_, ?_, ?_⟩
    · simp [get_panes, hf]
    · simp [update_selected_pane, hf]
    · simp [processSessionUpdate, get_panes, hf]
  · intro hone
    have hex : ∃ x ∈ si, x.is_current_session = true := by
      have : 0 < si.countP (fun x => x.is_current_session) := by omega
      exact List.countP_pos_iff.mp this
    have hsome : (si.find? (fun x => x.is_current_session)).isSome = true := by
      rw [List.find?_isSome]
      exact hex
    obtain ⟨cur, hf⟩ := Option.isSome_iff_exists.mp hsome
    constructor
    · simp [get_panes, hf]
    · cases hs : s.selected_pane with
      | none => simp [update_selected_pane, hf, hs]
      | some sel =>
        cases hl : (manifestGet cur.panes sel.parent_tab.tab_id).bind
            (fun l => l.find? (fun p => p.id = sel.pane_id)) with
        | none => simp [update_selected_pane, hf, hs, hl]
        | some pi =>
          cases ht : cur.tabs[sel.parent_tab.tab_id]? with
          | none => simp [update_selected_pane, hf, hs, hl, ht]
          | some tab => simp [update_selected_pane, hf, hs, hl, ht]

/-- Witness for C8: the concrete no-current snapshot aborts both
functions; the concrete current-session snapshot aborts neither. -/
theorem no_current_session_fatal_witness :
    (get_panes emptyState noCurrentSnapshot = none ∧
     update_selected_pane emptyState noCurrentSnapshot = none ∧
     processSessionUpdate emptyState noCurrentSnapshot = none) ∧
    ((get_panes emptyState demoSnapshot).isSome = true ∧
     (update_selected_pane emptyState demoSnapshot).isSome = true) :=
  ⟨(no_current_session_fatal emptyState noCurrentSnapshot).1 (by decide),
   (no_current_session_fatal emptyState demoSnapshot).2 (by decide)⟩

/-- `range'` splits at any midpoint. -/
theorem range'_split (s m n : Nat) :
    List.range' s (m + n) = List.range' s m ++ List.range' (s + m) n := by
  have h := List.range'_append s m n 1
  rw [Nat.one_mul] at h
  rw [Nat.add_comm m n, ← h]

/-- Inserting at a key absent from the map appends the entry. -/
theorem mapInsert_fresh (m : List (Nat × PaneUi)) (k : Nat) (v : PaneUi)
    (h : ∀ kv ∈ m, kv.1 ≠ k) : mapInsert m k v = m ++ [(k, v)] := by
  have hany : m.any (fun kv => kv.1 = k) = false := by
    rw [List.any_eq_false]
    intro kv hkv
    simpa using h kv hkv
  simp [mapInsert, hany]

/-- The inner `get_panes` loop appends the panes at the consecutive fresh
keys and advances the counter. -/
theorem insertPanes_spec (ps : List PaneUi) :
    ∀ (m : List (Nat × PaneUi)) (n : Nat), m.map Prod.fst = List.range' 1 n →
      insertPanes (m, n + 1) ps =
        (m ++ (List.range' (n + 1) ps.length).zip ps, n + 1 + ps.length) := by
  induction ps with
  | nil => intro m n h; simp [insertPanes]
  | cons p rest ih =>
    intro m n h
    have hfresh : ∀ kv ∈ m, kv.1 ≠ n + 1 := by
      intro kv hkv hk
      have hmem : kv.1 ∈ List.range' 1 n := by
        rw [← h]
        exact List.mem_map_of_mem Prod.fst hkv
      have := List.mem_range'_1.mp hmem
      omega
    have hstep : insertPanes (m, n + 1) (p :: rest) =
        insertPanes (mapInsert m (n + 1) p, n + 1 + 1) rest := rfl
    rw [hstep, mapInsert_fresh m (n + 1) p hfresh]
    have h2 : (m ++ [(n + 1, p)]).map Prod.fst = List.range' 1 (n + 1) := by
      rw [List.map_append, h, range'_split 1 n 1]
      simp [List.range', Nat.add_comm]
    rw [ih (m ++ [(n + 1, p)]) (n + 1) h2]
    simp only [List.length_cons, List.range'_succ, List.zip_cons_cons, Prod.mk.injEq]
    constructor
    · rw [List.append_assoc]
      simp
    · omega

/-- The outer `get_panes` loop appends all floating panes of the remaining
tabs at consecutive fresh keys. -/
theorem insertTabs_spec (cur : SessionInfo) (tabs : List TabInfo) :
    ∀ (m : List (Nat × PaneUi)) (n : Nat), m.map Prod.fst = List.range' 1 n →
      insertTabs cur (m, n + 1) tabs =
        (m ++ (List.range' (n + 1) ((tabs.map (tabFloating cur)).flatten).length).zip
            ((tabs.map (tabFloating cur)).flatten),
         n + 1 + ((tabs.map (tabFloating cur)).flatten).length) := by
  induction tabs with
  | nil => intro m n h; simp [insertTabs]
  | cons t rest ih =>
    intro m n h
    have hstep : insertTabs cur (m, n + 1) (t :: rest) =
        insertTabs cur (insertPanes (m, n + 1) (tabFloating cur t)) rest := rfl
    rw [hstep, insertPanes_spec (tabFloating cur t) m n h]
    have harith : n + 1 + (tabFloating cur t).length =
        (n + (tabFloating cur t).length) + 1 := by omega
    rw [harith]
    have hm : (m ++ (List.range' (n + 1) (tabFloating cur t).length).zip
          (tabFloating cur t)).map Prod.fst =
        List.range' 1 (n + (tabFloating cur t).length) := by
      rw [List.map_append, h, List.map_fst_zip _ _ (by simp), range'_split 1 n
        (tabFloating cur t).length, Nat.add_comm 1 n]
    rw [ih _ (n + (tabFloating cur t).length) hm]
    have hL : ((t :: rest).map (tabFloating cur)).flatten =
        tabFloating cur t ++ ((rest.map (tabFloating cur))).flatten := by
      simp
    rw [hL]
    have hlen : (tabFloating cur t ++ (rest.map (tabFloating cur)).flatten).length =
        (tabFloating cur t).length + ((rest.map (tabFloating cur)).flatten).length := by
      simp
    rw [hlen, range'_split (n + 1) (tabFloating cur t).length
      ((rest.map (tabFloating cur)).flatten).length]
    rw [List.zip_append (by simp)]
    have hidx : n + (tabFloating cur t).length + 1 = n + 1 + (tabFloating cur t).length := by
      omega
    rw [hidx]
    simp only [Prod.mk.injEq]
    constructor
    · rw [List.append_assoc]
    · omega

/-- Every descriptor a tab contributes has the floating flag set. -/
theorem tabFloating_floating (cur : SessionInfo) (t : TabInfo) :
    ∀ p ∈ tabFloating cur t, p.is_floating = true := by
  intro p hp
  unfold tabFloating at hp
  cases hm : manifestGet cur.panes t.position with
  | none => rw [hm] at hp; simp at hp
  | some related =>
    rw [hm] at hp
    obtain ⟨q, hq, rfl⟩ := List.mem_map.mp hp
    have := List.mem_filter.mp hq
    simpa [PaneUi.new] using this.2

/-- Every descriptor of the flat floating list has the floating flag set. -/
theorem floatingList_floating (cur : SessionInfo) :
    ∀ p ∈ floatingList cur, p.is_floating = true := by
  intro p hp
  unfold floatingList at hp
  obtain ⟨l, hl, hpl⟩ := List.mem_flatten.mp hp
  obtain ⟨t, ht, rfl⟩ := List.mem_map.mp hl
  exact tabFloating_floating cur t p hpl

/-- The number of floating panes is the per-tab sum of floating pane
counts. -/
theorem floatingList_length_sum (cur : SessionInfo) :
    (floatingList cur).length =
      (cur.tabs.map (fun t =>
        (((manifestGet cur.panes t.position).getD []).filter
          (fun p => p.is_floating)).length)).sum := by
  unfold floatingList
  rw [List.length_flatten, List.map_map]
  congr 1
  apply List.map_congr_left
  intro t ht
  cases hm : manifestGet cur.panes t.position with
  | none => simp [tabFloating, hm]
  | some related => simp [tabFloating, hm]

/-- Claim C2: rebuilding the index from a snapshot with a current session
yields exactly the keys `1..=k`, in order, where `k` is the number of
floating panes across all tabs of the current session, key `n` holding the
`n`-th floating pane in tab-major, pane-minor snapshot order; non-floating
panes never enter the index. -/
theorem rebuild_keys_dense (s : State) (si : List SessionInfo) (cur : SessionInfo)
    (hf : si.find? (fun x => x.is_current_session) = some cur) :
    get_panes s si =
      some { s with panes :=
        (List.range' 1 (floatingList cur).length).zip (floatingList cur) } ∧
    ((List.range' 1 (floatingList cur).length).zip (floatingList cur)).map Prod.fst =
      List.range' 1 (floatingList cur).length ∧
    mapLen ((List.range' 1 (floatingList cur).length).zip (floatingList cur)) =
      (floatingList cur).length ∧
    (∀ kv ∈ (List.range' 1 (floatingList cur).length).zip (floatingList cur),
      kv.2.is_floating = true) ∧
    (floatingList cur).length =
      (cur.tabs.map (fun t =>
        (((manifestGet cur.panes t.position).getD []).filter
          (fun p => p.is_floating)).length)).sum := by
  refine ⟨?_, List.map_fst_zip _ _ (by simp), by simp [mapLen], ?_,
    floatingList_length_sum cur⟩
  · have hspec := insertTabs_spec cur cur.tabs [] 0 (by simp)
    simp only [Nat.zero_add, List.nil_append] at hspec
    simp only [get_panes, hf, hspec, floatingList]
  · rintro ⟨k, v⟩ hkv
    exact floatingList_floating cur v (List.of_mem_zip hkv).2

/-- Witness for C2: rebuilding from the concrete two-tab snapshot (two
floating panes, one tiled) produces exactly the keys 1 and 2 holding the
two floating descriptors. -/
theorem rebuild_keys_dense_witness :
    get_panes emptyState demoSnapshot =
      some { emptyState with panes :=
        (List.range' 1 (floatingList demoSession).length).zip (floatingList demoSession) } ∧
    mapLen ((List.range' 1 (floatingList demoSession).length).zip
      (floatingList demoSession)) = (floatingList demoSession).length :=
  ⟨(rebuild_keys_dense emptyState demoSnapshot demoSession (by decide)).1,
   (rebuild_keys_dense emptyState demoSnapshot demoSession (by decide)).2.2.1⟩

end FloatPane
